import Mathlib

/-!
# The `aws_organization` resource handler

A shallow embedding of `aws/resource_aws_organization.go`: the three handlers
`resourceAwsOrganizationCreate`, `resourceAwsOrganizationRead` and
`resourceAwsOrganizationDelete`, the resource-state handle they mutate and the
Organizations client they call.

Go's mutation of `*schema.ResourceData` is rendered as explicit state passing,
the client as a transition system over an arbitrary remote state `σ` together
with the chronological list of calls issued. `log.Printf` has no effect on the
resource state or on the remote side and is left out.
-/

namespace AwsOrganization

/-! ## Errors -/

/-- A Go `error` value, reduced to the two observations the handlers make of it:
`awsCode` is `some c` exactly when the value implements `awserr.Error` and its
`Code()` is `c`; `text` is the result of `Error()`. -/
structure GoError where
  awsCode : Option String
  text : String
deriving DecidableEq, Repr

/-- The call `fmt.Errorf(pfx + "%s", err)`: a plain error (not an `awserr.Error`)
whose text is `pfx` followed by `err.Error()`. -/
def fmtErrorf (pfx : String) (err : GoError) : GoError :=
  { awsCode := none, text := pfx ++ err.text }

/-- What a handler hands back to its caller: `nil`, a non-nil `error`, or no
return at all because a nil pointer was dereferenced. -/
inductive Outcome where
  | ok
  | error (err : GoError)
  | nilDeref
deriving DecidableEq, Repr

/-- The handler returned a non-nil error. -/
def Outcome.isError : Outcome → Bool
  | .error _ => true
  | _ => false

/-! ## SDK types (`service/organizations`) -/

/-- The type `organizations.Organization`; every field is a `*string`. -/
structure Organization where
  Arn : Option String
  FeatureSet : Option String
  Id : Option String
  MasterAccountArn : Option String
  MasterAccountEmail : Option String
  MasterAccountId : Option String
deriving DecidableEq, Repr

/-- The type `organizations.CreateOrganizationInput`. -/
structure CreateOrganizationInput where
  FeatureSet : Option String
deriving DecidableEq, Repr

/-- The type `organizations.CreateOrganizationOutput`. -/
structure CreateOrganizationOutput where
  Organization : Option Organization
deriving DecidableEq, Repr

/-- The type `organizations.DescribeOrganizationOutput`. -/
structure DescribeOrganizationOutput where
  Organization : Option Organization
deriving DecidableEq, Repr

/-- The constant `organizations.OrganizationFeatureSetAll`. -/
def OrganizationFeatureSetAll : String := "ALL"

/-- The constant `organizations.OrganizationFeatureSetConsolidatedBilling`. -/
def OrganizationFeatureSetConsolidatedBilling : String := "CONSOLIDATED_BILLING"

/-- A request sent to the Organizations control plane. -/
inductive RemoteCall where
  | CreateOrganization (input : CreateOrganizationInput)
  | DescribeOrganization
  | DeleteOrganization
deriving DecidableEq, Repr

/-- The client `meta.(*AWSClient).organizationsconn`: each API call maps the
remote state to a result (error or response) and the next remote state. A
call that returns no error returns an output struct, as the SDK does; the
pointers inside the output may be nil. -/
structure OrganizationsConn (σ : Type) where
  CreateOrganization : CreateOrganizationInput → σ → Except GoError CreateOrganizationOutput × σ
  DescribeOrganization : σ → Except GoError DescribeOrganizationOutput × σ
  DeleteOrganization : σ → Except GoError Unit × σ

/-- The remote side as seen from one run: its current state and the calls
issued so far, oldest first. -/
structure Remote (σ : Type) where
  state : σ
  calls : List RemoteCall

/-! ## The resource-state handle (`schema.ResourceData`) -/

/-- The resource state of the schema of `resourceAwsOrganization`: the
identifier and the five string attributes. An attribute is `none` when nothing
(or a nil pointer) has been written to it. -/
structure ResourceData where
  id : String
  arn : Option String
  feature_set : Option String
  master_account_arn : Option String
  master_account_email : Option String
  master_account_id : Option String
deriving DecidableEq, Repr

/-- The method `d.SetId(v)`. -/
def ResourceData.SetId (d : ResourceData) (v : String) : ResourceData :=
  { d with id := v }

/-- The method `d.Set(key, value)` for a `*string` value: writes the attribute
named `key`; a key outside the schema writes nothing (the Go method then
returns an error, which the handlers discard). -/
def ResourceData.Set (d : ResourceData) (key : String) (value : Option String) : ResourceData :=
  if key = "arn" then { d with arn := value }
  else if key = "feature_set" then { d with feature_set := value }
  else if key = "master_account_arn" then { d with master_account_arn := value }
  else if key = "master_account_email" then { d with master_account_email := value }
  else if key = "master_account_id" then { d with master_account_id := value }
  else d

/-- The expression `d.Get(key).(string)`: the attribute's value, the zero
string when it holds none. -/
def ResourceData.Get (d : ResourceData) (key : String) : String :=
  if key = "arn" then d.arn.getD ""
  else if key = "feature_set" then d.feature_set.getD ""
  else if key = "master_account_arn" then d.master_account_arn.getD ""
  else if key = "master_account_email" then d.master_account_email.getD ""
  else if key = "master_account_id" then d.master_account_id.getD ""
  else ""

/-- The five attributes of two states agree. -/
def ResourceData.sameAttributes (d d' : ResourceData) : Prop :=
  d'.arn = d.arn ∧ d'.feature_set = d.feature_set ∧
  d'.master_account_arn = d.master_account_arn ∧
  d'.master_account_email = d.master_account_email ∧
  d'.master_account_id = d.master_account_id

/-! ## The handlers -/

/-- The function `resourceAwsOrganizationRead`. -/
def resourceAwsOrganizationRead {σ : Type} (conn : OrganizationsConn σ)
    (d : ResourceData) (w : Remote σ) : Outcome × ResourceData × Remote σ :=
  let r := conn.DescribeOrganization w.state
  let w1 : Remote σ := { state := r.2, calls := w.calls ++ [RemoteCall.DescribeOrganization] }
  match r.1 with
  | .error err =>
    if err.awsCode = some "AWSOrganizationsNotInUseException" then
      (Outcome.ok, d.SetId "", w1)
    else
      (Outcome.error err, d, w1)
  | .ok org =>
    match org.Organization with
    | none => (Outcome.nilDeref, d, w1)
    | some o =>
      let d1 := d.Set "arn" o.Arn
      let d2 := d1.Set "feature_set" o.FeatureSet
      let d3 := d2.Set "master_account_arn" o.MasterAccountArn
      let d4 := d3.Set "master_account_email" o.MasterAccountEmail
      let d5 := d4.Set "master_account_id" o.MasterAccountId
      (Outcome.ok, d5, w1)

/-- The function `resourceAwsOrganizationCreate`. -/
def resourceAwsOrganizationCreate {σ : Type} (conn : OrganizationsConn σ)
    (d : ResourceData) (w : Remote σ) : Outcome × ResourceData × Remote σ :=
  let createOpts : CreateOrganizationInput := { FeatureSet := some (d.Get "feature_set") }
  let r := conn.CreateOrganization createOpts w.state
  let w1 : Remote σ :=
    { state := r.2, calls := w.calls ++ [RemoteCall.CreateOrganization createOpts] }
  match r.1 with
  | .error err => (Outcome.error (fmtErrorf "Error creating organization: " err), d, w1)
  | .ok resp =>
    match resp.Organization with
    | none => (Outcome.nilDeref, d, w1)
    | some org =>
      match org.Id with
      | none => (Outcome.nilDeref, d, w1)
      | some id => resourceAwsOrganizationRead conn (d.SetId id) w1

/-- The function `resourceAwsOrganizationDelete`. -/
def resourceAwsOrganizationDelete {σ : Type} (conn : OrganizationsConn σ)
    (d : ResourceData) (w : Remote σ) : Outcome × ResourceData × Remote σ :=
  let r := conn.DeleteOrganization w.state
  let w1 : Remote σ := { state := r.2, calls := w.calls ++ [RemoteCall.DeleteOrganization] }
  match r.1 with
  | .error err => (Outcome.error (fmtErrorf "Error deleting Organization: " err), d, w1)
  | .ok _ => (Outcome.ok, d.SetId "", w1)

/-! ## What the provider runtime does around the handlers -/

/-- Modelled from the spec: the helper `validation.StringInSlice(valid, ignoreCase)`
of the provider framework, which is not part of this file. It accepts a value
equal to one of `valid`, or equal to one of them after lower-casing both when
`ignoreCase` is set, and reports one error otherwise. The result is the list
of errors, empty on acceptance. `lower` stands for Go's `strings.ToLower`. -/
def StringInSlice (lower : String → String) (valid : List String) (ignoreCase : Bool)
    (v : String) (k : String) : List GoError :=
  if valid.any (fun str => v == str || (ignoreCase && lower v == lower str)) then []
  else [{ awsCode := none,
          text := "expected " ++ k ++ " to be one of [" ++ " ".intercalate valid ++ "], got " ++ v }]

/-- The `ValidateFunc` of the `feature_set` attribute in the schema of
`resourceAwsOrganization`. -/
def featureSetValidateFunc (lower : String → String) (v : String) (k : String) : List GoError :=
  StringInSlice lower [OrganizationFeatureSetAll, OrganizationFeatureSetConsolidatedBilling] true v k

/-- Modelled from the spec: the provider runtime, which is not part of this
file, checks the configured `feature_set` with the schema's `ValidateFunc`
and hands the state to the Create handler only when no error is reported; a
rejected configuration never reaches the handler. -/
def validatedCreate {σ : Type} (lower : String → String) (conn : OrganizationsConn σ)
    (d : ResourceData) (w : Remote σ) : Outcome × ResourceData × Remote σ :=
  match featureSetValidateFunc lower (d.Get "feature_set") "feature_set" with
  | [] => resourceAwsOrganizationCreate conn d w
  | err :: _ => (Outcome.error err, d, w)

/-- A state in which nothing has been written. -/
def ResourceData.empty : ResourceData :=
  { id := "", arn := none, feature_set := none, master_account_arn := none,
    master_account_email := none, master_account_id := none }

/-- Modelled from the spec: the importer `schema.ImportStatePassthrough`, which
is not part of this file. The runtime puts the supplied identifier into a
fresh state and the passthrough returns that state as it is. -/
def ImportStatePassthrough (id : String) : ResourceData :=
  ResourceData.empty.SetId id

/-! ## Sample remotes -/

/-- An organization as the control plane would describe it. -/
def sampleOrganization (featureSet : Option String) : Organization :=
  { Arn := some "arn:aws:organizations::111122223333:organization/o-exampleorgid",
    FeatureSet := featureSet,
    Id := some "o-exampleorgid",
    MasterAccountArn := some "arn:aws:organizations::111122223333:account/o-exampleorgid/111122223333",
    MasterAccountEmail := some "owner@example.com",
    MasterAccountId := some "111122223333" }

/-- The error a call gets when the account belongs to no organization. -/
def notInUse : GoError :=
  { awsCode := some "AWSOrganizationsNotInUseException",
    text := "AWSOrganizationsNotInUseException: Your account is not a member of an organization." }

/-- The error a call gets when the caller lacks the permission for it. -/
def accessDenied : GoError :=
  { awsCode := some "AccessDeniedException",
    text := "AccessDeniedException: You do not have permissions to access this resource." }

/-- An error that is not an `awserr.Error`. -/
def requestFailed : GoError :=
  { awsCode := none, text := "RequestError: send request failed" }

/-- A control plane whose state is the account's organization, if it has one. -/
def liveConn : OrganizationsConn (Option Organization) where
  CreateOrganization := fun input s =>
    match s with
    | some _ =>
      (Except.error { awsCode := some "AlreadyInOrganizationException",
                      text := "AlreadyInOrganizationException: The AWS account is already a member of an organization." }, s)
    | none => (Except.ok { Organization := some (sampleOrganization input.FeatureSet) },
               some (sampleOrganization input.FeatureSet))
  DescribeOrganization := fun s =>
    match s with
    | some o => (Except.ok { Organization := some o }, s)
    | none => (Except.error notInUse, s)
  DeleteOrganization := fun s =>
    match s with
    | some _ => (Except.ok (), none)
    | none => (Except.error notInUse, s)

/-- The control plane of `liveConn` for a caller that may create and delete the
organization but is denied `DescribeOrganization`. -/
def deniedDescribeConn : OrganizationsConn (Option Organization) where
  CreateOrganization := liveConn.CreateOrganization
  DescribeOrganization := fun s => (Except.error accessDenied, s)
  DeleteOrganization := liveConn.DeleteOrganization

/-- The control plane of `liveConn` where a freshly created organization is not
yet visible to `DescribeOrganization`. -/
def laggingConn : OrganizationsConn (Option Organization) where
  CreateOrganization := liveConn.CreateOrganization
  DescribeOrganization := fun s => (Except.error notInUse, s)
  DeleteOrganization := liveConn.DeleteOrganization

/-- The control plane of `liveConn` whose DescribeOrganization answers without
error but with a response that carries no organization (a nil pointer). -/
def bareDescribeConn : OrganizationsConn (Option Organization) where
  CreateOrganization := liveConn.CreateOrganization
  DescribeOrganization := fun s => (Except.ok { Organization := none }, s)
  DeleteOrganization := liveConn.DeleteOrganization

/-- A control plane that cannot be reached: every call fails in transport. -/
def unreachableConn : OrganizationsConn (Option Organization) where
  CreateOrganization := fun _ s => (Except.error requestFailed, s)
  DescribeOrganization := fun s => (Except.error requestFailed, s)
  DeleteOrganization := fun s => (Except.error requestFailed, s)

/-- The state handed to Create for a configuration with the given `feature_set`. -/
def plannedState (featureSet : String) : ResourceData :=
  { ResourceData.empty with feature_set := some featureSet }

/-- A state as left by an earlier successful Create and Read. -/
def storedState : ResourceData :=
  { id := "o-exampleorgid",
    arn := some "arn:aws:organizations::111122223333:organization/o-exampleorgid",
    feature_set := some "ALL",
    master_account_arn := some "arn:aws:organizations::111122223333:account/o-exampleorgid/111122223333",
    master_account_email := some "owner@example.com",
    master_account_id := some "111122223333" }

/-- A state whose five attributes still describe a former organization. -/
def staleState : ResourceData :=
  { id := "o-formerorgid",
    arn := some "arn:aws:organizations::444455556666:organization/o-formerorgid",
    feature_set := some "CONSOLIDATED_BILLING",
    master_account_arn := some "arn:aws:organizations::444455556666:account/o-formerorgid/444455556666",
    master_account_email := some "former@example.com",
    master_account_id := some "444455556666" }

/-- Lower-casing of the ASCII letters, which is what `strings.ToLower` does
on ASCII text. -/
def asciiLower (s : String) : String :=
  String.mk (s.data.map Char.toLower)

/-- The remote side before any call, in the given state. -/
def freshRemote {σ : Type} (s : σ) : Remote σ := { state := s, calls := [] }

/-! ## Read -/

/-- C1: when DescribeOrganization fails with an `awserr.Error` whose code is
exactly "AWSOrganizationsNotInUseException", Read returns no error, leaves the
identifier empty and writes none of the five attributes. -/
theorem read_not_in_use_clears_id {σ : Type} (conn : OrganizationsConn σ)
    (d : ResourceData) (w : Remote σ) (err : GoError)
    (hfail : (conn.DescribeOrganization w.state).1 = Except.error err)
    (hcode : err.awsCode = some "AWSOrganizationsNotInUseException") :
    (resourceAwsOrganizationRead conn d w).1 = Outcome.ok ∧
    (resourceAwsOrganizationRead conn d w).2.1.id = "" ∧
    ResourceData.sameAttributes d (resourceAwsOrganizationRead conn d w).2.1 := by
  simp [resourceAwsOrganizationRead, hfail, hcode, ResourceData.SetId,
    ResourceData.sameAttributes]

/-- Witness for C1: a stored state read against an account that has left its
organization. -/
theorem read_not_in_use_clears_id_witness :
    (resourceAwsOrganizationRead liveConn storedState (freshRemote none)).1 = Outcome.ok ∧
    (resourceAwsOrganizationRead liveConn storedState (freshRemote none)).2.1.id = "" ∧
    ResourceData.sameAttributes storedState
      (resourceAwsOrganizationRead liveConn storedState (freshRemote none)).2.1 :=
  read_not_in_use_clears_id liveConn storedState (freshRemote none) notInUse rfl rfl

/-- C2: when DescribeOrganization fails with anything but an `awserr.Error` of
code "AWSOrganizationsNotInUseException" (another code, or no `awserr.Error`
at all), Read returns an error and the state is the one before the call. -/
theorem read_other_failure_keeps_state {σ : Type} (conn : OrganizationsConn σ)
    (d : ResourceData) (w : Remote σ) (err : GoError)
    (hfail : (conn.DescribeOrganization w.state).1 = Except.error err)
    (hcode : err.awsCode ≠ some "AWSOrganizationsNotInUseException") :
    (resourceAwsOrganizationRead conn d w).1 = Outcome.error err ∧
    (resourceAwsOrganizationRead conn d w).2.1 = d := by
  simp [resourceAwsOrganizationRead, hfail, hcode]

/-- Witness for C2: a stored state read by a caller denied DescribeOrganization. -/
theorem read_other_failure_keeps_state_witness :
    (resourceAwsOrganizationRead deniedDescribeConn storedState
      (freshRemote (some (sampleOrganization (some "ALL"))))).1 = Outcome.error accessDenied ∧
    (resourceAwsOrganizationRead deniedDescribeConn storedState
      (freshRemote (some (sampleOrganization (some "ALL"))))).2.1 = storedState :=
  read_other_failure_keeps_state deniedDescribeConn storedState
    (freshRemote (some (sampleOrganization (some "ALL")))) accessDenied rfl (by decide)

/-- C6, as stated, fails: a DescribeOrganization that returns no error but a
response without organization makes Read dereference a nil pointer, so Read
does not return at all, and in particular does not return no error. -/
theorem read_nil_organization_counterexample :
    (bareDescribeConn.DescribeOrganization (some (sampleOrganization (some "ALL")))).1 =
      Except.ok { Organization := none } ∧
    (resourceAwsOrganizationRead bareDescribeConn storedState
      (freshRemote (some (sampleOrganization (some "ALL"))))).1 = Outcome.nilDeref ∧
    (resourceAwsOrganizationRead bareDescribeConn storedState
      (freshRemote (some (sampleOrganization (some "ALL"))))).1 ≠ Outcome.ok :=
  ⟨rfl, by decide, by decide⟩

/-- C6, amended: when DescribeOrganization succeeds with a response that carries
an organization, Read returns no error, the five attributes take the values of
the corresponding fields of that organization whatever they held before, and
the identifier stays as it was, whatever identifier the response carries. -/
theorem read_success_overwrites_attributes {σ : Type} (conn : OrganizationsConn σ)
    (d : ResourceData) (w : Remote σ) (out : DescribeOrganizationOutput) (o : Organization)
    (hok : (conn.DescribeOrganization w.state).1 = Except.ok out)
    (horg : out.Organization = some o) :
    (resourceAwsOrganizationRead conn d w).1 = Outcome.ok ∧
    (resourceAwsOrganizationRead conn d w).2.1.arn = o.Arn ∧
    (resourceAwsOrganizationRead conn d w).2.1.feature_set = o.FeatureSet ∧
    (resourceAwsOrganizationRead conn d w).2.1.master_account_arn = o.MasterAccountArn ∧
    (resourceAwsOrganizationRead conn d w).2.1.master_account_email = o.MasterAccountEmail ∧
    (resourceAwsOrganizationRead conn d w).2.1.master_account_id = o.MasterAccountId ∧
    (resourceAwsOrganizationRead conn d w).2.1.id = d.id := by
  simp [resourceAwsOrganizationRead, hok, horg, ResourceData.Set]

/-- Witness for C6 (amended): a state holding the five attributes and the
identifier of a former organization is read against another, live
organization; every attribute is replaced and the identifier stays. -/
theorem read_success_overwrites_attributes_witness :
    staleState.arn ≠ (sampleOrganization (some "ALL")).Arn ∧
    staleState.feature_set ≠ (sampleOrganization (some "ALL")).FeatureSet ∧
    staleState.master_account_arn ≠ (sampleOrganization (some "ALL")).MasterAccountArn ∧
    staleState.master_account_email ≠ (sampleOrganization (some "ALL")).MasterAccountEmail ∧
    staleState.master_account_id ≠ (sampleOrganization (some "ALL")).MasterAccountId ∧
    some staleState.id ≠ (sampleOrganization (some "ALL")).Id ∧
    (resourceAwsOrganizationRead liveConn staleState
      (freshRemote (some (sampleOrganization (some "ALL"))))).1 = Outcome.ok ∧
    (resourceAwsOrganizationRead liveConn staleState
      (freshRemote (some (sampleOrganization (some "ALL"))))).2.1 =
      { storedState with id := "o-formerorgid" } :=
  have h := read_success_overwrites_attributes liveConn staleState
    (freshRemote (some (sampleOrganization (some "ALL"))))
    { Organization := some (sampleOrganization (some "ALL")) }
    (sampleOrganization (some "ALL")) rfl rfl
  ⟨by decide, by decide, by decide, by decide, by decide, by decide, h.1, by decide⟩

/-! ## Delete -/

/-- C3: Delete returns no error and leaves the identifier empty exactly when the
remote DeleteOrganization call succeeds (the attributes are kept); when the
call fails, Delete returns an error and the state is the one before the call. -/
theorem delete_clears_id_iff_remote_succeeds {σ : Type} (conn : OrganizationsConn σ)
    (d : ResourceData) (w : Remote σ) :
    (((resourceAwsOrganizationDelete conn d w).1 = Outcome.ok ∧
        (resourceAwsOrganizationDelete conn d w).2.1 = d.SetId "") ↔
      ∃ u, (conn.DeleteOrganization w.state).1 = Except.ok u) ∧
    (∀ err, (conn.DeleteOrganization w.state).1 = Except.error err →
      (resourceAwsOrganizationDelete conn d w).1.isError = true ∧
      (resourceAwsOrganizationDelete conn d w).2.1 = d) := by
  cases h : (conn.DeleteOrganization w.state).1 with
  | error e => simp [resourceAwsOrganizationDelete, h, Outcome.isError]
  | ok u => simp [resourceAwsOrganizationDelete, h]

/-- Witness for C3: deleting where the account has no organization fails and
keeps the stored state. -/
theorem delete_clears_id_iff_remote_succeeds_witness :
    (resourceAwsOrganizationDelete liveConn storedState (freshRemote none)).1.isError = true ∧
    (resourceAwsOrganizationDelete liveConn storedState (freshRemote none)).2.1 = storedState :=
  (delete_clears_id_iff_remote_succeeds liveConn storedState (freshRemote none)).2 notInUse rfl

/-! ## Create -/

/-- C10: when the remote CreateOrganization call fails, Create returns an
error, issues no further call (no DescribeOrganization), and leaves the state
as it was; the one request sent carries the state's feature_set as it is. -/
theorem create_remote_failure_keeps_state {σ : Type} (conn : OrganizationsConn σ)
    (d : ResourceData) (w : Remote σ) (err : GoError)
    (hfail : (conn.CreateOrganization { FeatureSet := some (d.Get "feature_set") } w.state).1
      = Except.error err) :
    (resourceAwsOrganizationCreate conn d w).1.isError = true ∧
    (resourceAwsOrganizationCreate conn d w).2.1 = d ∧
    (resourceAwsOrganizationCreate conn d w).2.2.calls =
      w.calls ++ [RemoteCall.CreateOrganization { FeatureSet := some (d.Get "feature_set") }] ∧
    (∀ v, d.feature_set = some v → d.Get "feature_set" = v) := by
  refine ⟨?_, ?_, ?_, ?_⟩
  · simp [resourceAwsOrganizationCreate, hfail, Outcome.isError]
  · simp [resourceAwsOrganizationCreate, hfail]
  · simp [resourceAwsOrganizationCreate, hfail]
  · intro v hv
    simp [ResourceData.Get, hv]

/-- Witness for C10: creating with a mixed-case feature_set where the account
already belongs to an organization. -/
theorem create_remote_failure_keeps_state_witness :
    (resourceAwsOrganizationCreate liveConn (plannedState "All")
      (freshRemote (some (sampleOrganization (some "ALL"))))).2.1 = plannedState "All" ∧
    (resourceAwsOrganizationCreate liveConn (plannedState "All")
      (freshRemote (some (sampleOrganization (some "ALL"))))).2.2.calls =
      [RemoteCall.CreateOrganization { FeatureSet := some "All" }] :=
  have h := create_remote_failure_keeps_state liveConn (plannedState "All")
    (freshRemote (some (sampleOrganization (some "ALL"))))
    { awsCode := some "AlreadyInOrganizationException",
      text := "AlreadyInOrganizationException: The AWS account is already a member of an organization." }
    rfl
  ⟨h.2.1, h.2.2.1⟩

/-- C4, as stated, fails: with a valid feature_set and a CreateOrganization that
succeeds, Create returns the error of the delegated Read when the caller is
denied DescribeOrganization, and returns no error with an empty identifier
when DescribeOrganization answers that no organization is in use. -/
theorem create_success_not_enough_counterexample :
    (deniedDescribeConn.CreateOrganization { FeatureSet := some "ALL" } none).1 =
      Except.ok { Organization := some (sampleOrganization (some "ALL")) } ∧
    (resourceAwsOrganizationCreate deniedDescribeConn (plannedState "ALL")
      (freshRemote none)).1 = Outcome.error accessDenied ∧
    (laggingConn.CreateOrganization { FeatureSet := some "ALL" } none).1 =
      Except.ok { Organization := some (sampleOrganization (some "ALL")) } ∧
    (resourceAwsOrganizationCreate laggingConn (plannedState "ALL")
      (freshRemote none)).1 = Outcome.ok ∧
    (resourceAwsOrganizationCreate laggingConn (plannedState "ALL")
      (freshRemote none)).2.1.id = "" :=
  ⟨rfl, by decide, rfl, by decide, by decide⟩

/-- C4, amended: for every feature_set value, when CreateOrganization succeeds
with an organization that has an identifier and the DescribeOrganization call
of the delegated Read succeeds as well with a response that carries an
organization, Create returns no error and leaves the identifier equal to the
one CreateOrganization returned. -/
theorem create_success_sets_returned_id {σ : Type} (conn : OrganizationsConn σ)
    (d : ResourceData) (w : Remote σ) (resp : CreateOrganizationOutput) (org : Organization)
    (id : String) (out : DescribeOrganizationOutput) (o : Organization)
    (hcreate : (conn.CreateOrganization { FeatureSet := some (d.Get "feature_set") } w.state).1
      = Except.ok resp)
    (horg : resp.Organization = some org) (hid : org.Id = some id)
    (hdescribe : (conn.DescribeOrganization
      (conn.CreateOrganization { FeatureSet := some (d.Get "feature_set") } w.state).2).1
      = Except.ok out)
    (hout : out.Organization = some o) :
    (resourceAwsOrganizationCreate conn d w).1 = Outcome.ok ∧
    (resourceAwsOrganizationCreate conn d w).2.1.id = id := by
  constructor
  · simp [resourceAwsOrganizationCreate, resourceAwsOrganizationRead, hcreate, horg, hid,
      hdescribe, hout]
  · simp [resourceAwsOrganizationCreate, resourceAwsOrganizationRead, hcreate, horg, hid,
      hdescribe, hout, ResourceData.Set, ResourceData.SetId]

/-- Witness for C4 (amended): creating with a lower-case feature_set on an
account that has no organization yet leaves a populated identifier. -/
theorem create_success_sets_returned_id_witness :
    (resourceAwsOrganizationCreate liveConn (plannedState "consolidated_billing")
      (freshRemote none)).1 = Outcome.ok ∧
    (resourceAwsOrganizationCreate liveConn (plannedState "consolidated_billing")
      (freshRemote none)).2.1.id = "o-exampleorgid" ∧
    (resourceAwsOrganizationCreate liveConn (plannedState "consolidated_billing")
      (freshRemote none)).2.1.id ≠ "" :=
  have h := create_success_sets_returned_id liveConn (plannedState "consolidated_billing")
    (freshRemote none)
    { Organization := some (sampleOrganization (some "consolidated_billing")) }
    (sampleOrganization (some "consolidated_billing")) "o-exampleorgid"
    { Organization := some (sampleOrganization (some "consolidated_billing")) }
    (sampleOrganization (some "consolidated_billing")) rfl rfl rfl rfl rfl
  ⟨h.1, h.2, by decide⟩

/-! ## Error texts -/

/-- A text that stays the same with `pfx` put in front has an empty `pfx`. -/
theorem append_eq_self_left (pfx s : String) (h : pfx ++ s = s) : pfx = "" := by
  have h1 : (pfx ++ s).data = s.data := by rw [h]
  rw [String.data_append] at h1
  have h2 : pfx.data = [] := List.append_left_eq_self.mp h1
  exact String.ext h2

/-- C8, as stated, fails for Read: against an unreachable control plane Read
returns the remote error itself, whose text carries no text in front of the
remote error's text. -/
theorem read_error_not_wrapped_counterexample :
    (resourceAwsOrganizationRead unreachableConn storedState (freshRemote none)).1 =
      Outcome.error requestFailed ∧
    ¬ ∃ pfx e, pfx ≠ "" ∧
      (resourceAwsOrganizationRead unreachableConn storedState (freshRemote none)).1 =
        Outcome.error e ∧
      e.text = pfx ++ requestFailed.text := by
  have hread : (resourceAwsOrganizationRead unreachableConn storedState (freshRemote none)).1 =
      Outcome.error requestFailed := by decide
  refine ⟨hread, ?_⟩
  rintro ⟨pfx, e, hne, he, htext⟩
  rw [hread] at he
  have hee : requestFailed = e := by
    injection he
  subst hee
  exact hne (append_eq_self_left pfx _ htext.symm)

/-- C8, amended: Create turns a CreateOrganization failure into an error whose
text is "Error creating organization: " followed by the remote text, Delete
turns a DeleteOrganization failure into one whose text is
"Error deleting Organization: " followed by the remote text, and a
DescribeOrganization failure other than the not-in-use condition comes back as
the remote error itself, from Read and from the Read that Create delegates to. -/
theorem remote_error_texts {σ : Type} (conn : OrganizationsConn σ)
    (d : ResourceData) (w : Remote σ) :
    (∀ err, (conn.CreateOrganization { FeatureSet := some (d.Get "feature_set") } w.state).1
        = Except.error err →
      (resourceAwsOrganizationCreate conn d w).1 =
        Outcome.error { awsCode := none, text := "Error creating organization: " ++ err.text }) ∧
    (∀ err, (conn.DeleteOrganization w.state).1 = Except.error err →
      (resourceAwsOrganizationDelete conn d w).1 =
        Outcome.error { awsCode := none, text := "Error deleting Organization: " ++ err.text }) ∧
    (∀ err, (conn.DescribeOrganization w.state).1 = Except.error err →
      err.awsCode ≠ some "AWSOrganizationsNotInUseException" →
      (resourceAwsOrganizationRead conn d w).1 = Outcome.error err) ∧
    (∀ resp org id err,
      (conn.CreateOrganization { FeatureSet := some (d.Get "feature_set") } w.state).1
        = Except.ok resp →
      resp.Organization = some org → org.Id = some id →
      (conn.DescribeOrganization
        (conn.CreateOrganization { FeatureSet := some (d.Get "feature_set") } w.state).2).1
        = Except.error err →
      err.awsCode ≠ some "AWSOrganizationsNotInUseException" →
      (resourceAwsOrganizationCreate conn d w).1 = Outcome.error err) := by
  refine ⟨?_, ?_, ?_, ?_⟩
  · intro err h
    simp [resourceAwsOrganizationCreate, h, fmtErrorf]
  · intro err h
    simp [resourceAwsOrganizationDelete, h, fmtErrorf]
  · intro err h hcode
    simp [resourceAwsOrganizationRead, h, hcode]
  · intro resp org id err h horg hid hdesc hcode
    simp [resourceAwsOrganizationCreate, resourceAwsOrganizationRead, h, horg, hid, hdesc, hcode]

/-- Witness for C8 (amended): the three operations against an unreachable
control plane. -/
theorem remote_error_texts_witness :
    (resourceAwsOrganizationCreate unreachableConn (plannedState "ALL") (freshRemote none)).1 =
      Outcome.error
        { awsCode := none,
          text := "Error creating organization: RequestError: send request failed" } ∧
    (resourceAwsOrganizationDelete unreachableConn (plannedState "ALL") (freshRemote none)).1 =
      Outcome.error
        { awsCode := none,
          text := "Error deleting Organization: RequestError: send request failed" } ∧
    (resourceAwsOrganizationRead unreachableConn (plannedState "ALL") (freshRemote none)).1 =
      Outcome.error requestFailed :=
  have h := remote_error_texts unreachableConn (plannedState "ALL") (freshRemote none)
  ⟨h.1 requestFailed rfl, h.2.1 requestFailed rfl, h.2.2.1 requestFailed rfl (by decide)⟩

/-! ## Remote calls -/

/-- Read issues one DescribeOrganization call and nothing else. -/
theorem read_remote {σ : Type} (conn : OrganizationsConn σ) (d : ResourceData) (w : Remote σ) :
    (resourceAwsOrganizationRead conn d w).2.2 =
      { state := (conn.DescribeOrganization w.state).2,
        calls := w.calls ++ [RemoteCall.DescribeOrganization] } := by
  unfold resourceAwsOrganizationRead
  cases h : (conn.DescribeOrganization w.state).1 with
  | error e =>
    by_cases hc : e.awsCode = some "AWSOrganizationsNotInUseException" <;> simp [h, hc]
  | ok out =>
    cases ho : out.Organization <;> simp [h, ho]

/-- Delete issues one DeleteOrganization call and nothing else. -/
theorem delete_remote {σ : Type} (conn : OrganizationsConn σ) (d : ResourceData) (w : Remote σ) :
    (resourceAwsOrganizationDelete conn d w).2.2 =
      { state := (conn.DeleteOrganization w.state).2,
        calls := w.calls ++ [RemoteCall.DeleteOrganization] } := by
  unfold resourceAwsOrganizationDelete
  cases h : (conn.DeleteOrganization w.state).1 <;> simp [h]

/-- C9, as stated, fails for Create: after a successful CreateOrganization it
issues a second remote call, DescribeOrganization, and when that one fails
Create returns an error although the organization has been created. -/
theorem create_two_calls_counterexample :
    (resourceAwsOrganizationCreate deniedDescribeConn (plannedState "ALL")
      (freshRemote none)).2.2.calls =
      [RemoteCall.CreateOrganization { FeatureSet := some "ALL" },
       RemoteCall.DescribeOrganization] ∧
    (resourceAwsOrganizationCreate deniedDescribeConn (plannedState "ALL")
      (freshRemote none)).1 = Outcome.error accessDenied ∧
    (freshRemote (none : Option Organization)).state = none ∧
    (resourceAwsOrganizationCreate deniedDescribeConn (plannedState "ALL")
      (freshRemote none)).2.2.state = some (sampleOrganization (some "ALL")) :=
  ⟨by decide, by decide, rfl, by decide⟩

/-- C9, amended: Read issues exactly one DescribeOrganization and Delete exactly
one DeleteOrganization, and the remote state after either is the one that
single call leaves. Create issues exactly one CreateOrganization and, exactly
when that call succeeded with an organization that has an identifier, one
DescribeOrganization after it. Where a failing remote call changes nothing
remotely, a Read or Delete that returns an error, and a Create whose
CreateOrganization call failed, leave the remote state as it was. -/
theorem calls_issued_per_operation {σ : Type} (conn : OrganizationsConn σ)
    (d : ResourceData) (w : Remote σ) :
    (resourceAwsOrganizationRead conn d w).2.2.calls =
      w.calls ++ [RemoteCall.DescribeOrganization] ∧
    (resourceAwsOrganizationRead conn d w).2.2.state = (conn.DescribeOrganization w.state).2 ∧
    (resourceAwsOrganizationDelete conn d w).2.2.calls =
      w.calls ++ [RemoteCall.DeleteOrganization] ∧
    (resourceAwsOrganizationDelete conn d w).2.2.state = (conn.DeleteOrganization w.state).2 ∧
    ((∃ resp org id,
        (conn.CreateOrganization { FeatureSet := some (d.Get "feature_set") } w.state).1
          = Except.ok resp ∧ resp.Organization = some org ∧ org.Id = some id) →
      (resourceAwsOrganizationCreate conn d w).2.2.calls =
        w.calls ++ [RemoteCall.CreateOrganization { FeatureSet := some (d.Get "feature_set") },
                    RemoteCall.DescribeOrganization]) ∧
    ((¬ ∃ resp org id,
        (conn.CreateOrganization { FeatureSet := some (d.Get "feature_set") } w.state).1
          = Except.ok resp ∧ resp.Organization = some org ∧ org.Id = some id) →
      (resourceAwsOrganizationCreate conn d w).2.2.calls =
        w.calls ++ [RemoteCall.CreateOrganization { FeatureSet := some (d.Get "feature_set") }]) ∧
    ((∀ s err, (conn.DescribeOrganization s).1 = Except.error err →
        (conn.DescribeOrganization s).2 = s) →
      (resourceAwsOrganizationRead conn d w).1.isError = true →
      (resourceAwsOrganizationRead conn d w).2.2.state = w.state) ∧
    ((∀ s err, (conn.DeleteOrganization s).1 = Except.error err →
        (conn.DeleteOrganization s).2 = s) →
      (resourceAwsOrganizationDelete conn d w).1.isError = true →
      (resourceAwsOrganizationDelete conn d w).2.2.state = w.state) ∧
    ((∀ input s err, (conn.CreateOrganization input s).1 = Except.error err →
        (conn.CreateOrganization input s).2 = s) →
      ∀ err, (conn.CreateOrganization { FeatureSet := some (d.Get "feature_set") } w.state).1
          = Except.error err →
        (resourceAwsOrganizationCreate conn d w).2.2.state = w.state) := by
  refine ⟨?_, ?_, ?_, ?_, ?_, ?_, ?_, ?_, ?_⟩
  · rw [read_remote]
  · rw [read_remote]
  · rw [delete_remote]
  · rw [delete_remote]
  · rintro ⟨resp, org, id, h, horg, hid⟩
    simp [resourceAwsOrganizationCreate, h, horg, hid, read_remote]
  · intro hno
    unfold resourceAwsOrganizationCreate
    cases h : (conn.CreateOrganization { FeatureSet := some (d.Get "feature_set") } w.state).1 with
    | error e => simp [h]
    | ok resp =>
      cases horg : resp.Organization with
      | none => simp [h, horg]
      | some org =>
        cases hid : org.Id with
        | none => simp [h, horg, hid]
        | some id => exact absurd ⟨resp, org, id, h, horg, hid⟩ hno
  · intro hatomic herr
    rw [read_remote]
    cases h : (conn.DescribeOrganization w.state).1 with
    | error e => exact hatomic w.state e h
    | ok out =>
      exfalso
      revert herr
      unfold resourceAwsOrganizationRead
      cases ho : out.Organization <;> simp [h, ho, Outcome.isError]
  · intro hatomic herr
    rw [delete_remote]
    cases h : (conn.DeleteOrganization w.state).1 with
    | error e => exact hatomic w.state e h
    | ok u =>
      exfalso
      revert herr
      simp [resourceAwsOrganizationDelete, h, Outcome.isError]
  · intro hatomic err h
    have hs := hatomic _ _ _ h
    simp [resourceAwsOrganizationCreate, h, hs]

/-- Witness for C9 (amended): a Create on an account without organization
issues CreateOrganization and then DescribeOrganization. -/
theorem calls_issued_per_operation_witness :
    (resourceAwsOrganizationCreate liveConn (plannedState "ALL") (freshRemote none)).2.2.calls =
      [RemoteCall.CreateOrganization { FeatureSet := some "ALL" },
       RemoteCall.DescribeOrganization] ∧
    (resourceAwsOrganizationDelete liveConn storedState (freshRemote none)).2.2.state = none :=
  have h := calls_issued_per_operation liveConn (plannedState "ALL") (freshRemote none)
  have h2 := calls_issued_per_operation liveConn storedState (freshRemote none)
  ⟨h.2.2.2.2.1 ⟨{ Organization := some (sampleOrganization (some "ALL")) },
      sampleOrganization (some "ALL"), "o-exampleorgid", rfl, rfl, rfl⟩,
   h2.2.2.2.2.2.2.2.1
    (fun s err hs => by
      cases s with
      | none => rfl
      | some o => simp [liveConn] at hs)
    (by decide)⟩

/-! ## Validation of `feature_set` -/

/-- The validator reports nothing exactly for the values equal to one of the
two feature sets up to letter case. -/
theorem featureSetValidateFunc_eq_nil_iff (lower : String → String) (v k : String) :
    featureSetValidateFunc lower v k = [] ↔
      (lower v = lower OrganizationFeatureSetAll ∨
       lower v = lower OrganizationFeatureSetConsolidatedBilling) := by
  unfold featureSetValidateFunc StringInSlice
  constructor
  · intro h
    by_cases hany : ([OrganizationFeatureSetAll, OrganizationFeatureSetConsolidatedBilling].any
        (fun str => v == str || (true && lower v == lower str))) = true
    · simp only [List.any_cons, List.any_nil, Bool.or_false, Bool.true_and, Bool.or_eq_true,
        beq_iff_eq] at hany
      rcases hany with (h1 | h1) | (h1 | h1)
      · exact Or.inl (by rw [h1])
      · exact Or.inl h1
      · exact Or.inr (by rw [h1])
      · exact Or.inr h1
    · rw [if_neg hany] at h
      exact absurd h (List.cons_ne_nil _ _)
  · intro h
    have hany : ([OrganizationFeatureSetAll, OrganizationFeatureSetConsolidatedBilling].any
        (fun str => v == str || (true && lower v == lower str))) = true := by
      simp only [List.any_cons, List.any_nil, Bool.or_false, Bool.true_and, Bool.or_eq_true,
        beq_iff_eq]
      rcases h with h | h
      · exact Or.inl (Or.inr h)
      · exact Or.inr (Or.inr h)
    rw [if_pos hany]

/-- A feature_set equal to one of the two feature sets up to letter case passes
validation, and the state reaches the Create handler. -/
theorem validatedCreate_of_valid {σ : Type} (lower : String → String)
    (conn : OrganizationsConn σ) (d : ResourceData) (w : Remote σ)
    (h : lower (d.Get "feature_set") = lower OrganizationFeatureSetAll ∨
      lower (d.Get "feature_set") = lower OrganizationFeatureSetConsolidatedBilling) :
    validatedCreate lower conn d w = resourceAwsOrganizationCreate conn d w := by
  have hnil := (featureSetValidateFunc_eq_nil_iff lower (d.Get "feature_set") "feature_set").mpr h
  simp [validatedCreate, hnil]

/-- C5: a feature_set that is equal to neither "ALL" nor "CONSOLIDATED_BILLING"
up to letter case is reported by the feature_set validator, and Create is
rejected with an error before any remote call: no call is issued, the remote
state and the resource state stay as they were. -/
theorem invalid_feature_set_rejected {σ : Type} (lower : String → String)
    (conn : OrganizationsConn σ) (d : ResourceData) (w : Remote σ)
    (hall : lower (d.Get "feature_set") ≠ lower OrganizationFeatureSetAll)
    (hcb : lower (d.Get "feature_set") ≠ lower OrganizationFeatureSetConsolidatedBilling) :
    featureSetValidateFunc lower (d.Get "feature_set") "feature_set" ≠ [] ∧
    (validatedCreate lower conn d w).1.isError = true ∧
    (validatedCreate lower conn d w).2.2.calls = w.calls ∧
    (validatedCreate lower conn d w).2.2.state = w.state ∧
    (validatedCreate lower conn d w).2.1 = d := by
  have hne : featureSetValidateFunc lower (d.Get "feature_set") "feature_set" ≠ [] := by
    intro hnil
    rcases (featureSetValidateFunc_eq_nil_iff lower _ _).mp hnil with h | h
    · exact hall h
    · exact hcb h
  refine ⟨hne, ?_⟩
  unfold validatedCreate
  cases hv : featureSetValidateFunc lower (d.Get "feature_set") "feature_set" with
  | nil => exact absurd hv hne
  | cons e es => simp [Outcome.isError]

/-- Witness for C5: a configuration asking for the feature set "SOME". -/
theorem invalid_feature_set_rejected_witness :
    (validatedCreate asciiLower liveConn (plannedState "SOME") (freshRemote none)).1.isError
      = true ∧
    (validatedCreate asciiLower liveConn (plannedState "SOME") (freshRemote none)).2.2.calls
      = [] :=
  have h := invalid_feature_set_rejected asciiLower liveConn (plannedState "SOME")
    (freshRemote none) (by decide) (by decide)
  ⟨h.2.1, h.2.2.1⟩

/-! ## Import -/

/-- C7: against a remote whose DescribeOrganization succeeds with the same
description in each run, importing the organization's identifier into an empty
state and running Read gives the same record as a successful Create, from any
state and so for any configured feature_set, followed by Read: the identifier
and the five described attributes. -/
theorem import_read_eq_create_read {σ : Type} (conn : OrganizationsConn σ)
    (d : ResourceData) (w w' : Remote σ) (resp : CreateOrganizationOutput) (org : Organization)
    (id : String) (out : DescribeOrganizationOutput) (o : Organization)
    (hcreate : (conn.CreateOrganization { FeatureSet := some (d.Get "feature_set") } w.state).1
      = Except.ok resp)
    (horg : resp.Organization = some org) (hid : org.Id = some id)
    (hdescribe1 : (conn.DescribeOrganization
      (conn.CreateOrganization { FeatureSet := some (d.Get "feature_set") } w.state).2).1
      = Except.ok out)
    (hdescribe2 : (conn.DescribeOrganization (conn.DescribeOrganization
      (conn.CreateOrganization { FeatureSet := some (d.Get "feature_set") } w.state).2).2).1
      = Except.ok out)
    (hdescribe3 : (conn.DescribeOrganization w'.state).1 = Except.ok out)
    (hout : out.Organization = some o) :
    (resourceAwsOrganizationCreate conn d w).1 = Outcome.ok ∧
    (resourceAwsOrganizationRead conn (resourceAwsOrganizationCreate conn d w).2.1
      (resourceAwsOrganizationCreate conn d w).2.2).1 = Outcome.ok ∧
    (resourceAwsOrganizationRead conn (ImportStatePassthrough id) w').1 = Outcome.ok ∧
    (resourceAwsOrganizationRead conn (ImportStatePassthrough id) w').2.1 =
      (resourceAwsOrganizationRead conn (resourceAwsOrganizationCreate conn d w).2.1
        (resourceAwsOrganizationCreate conn d w).2.2).2.1 ∧
    (resourceAwsOrganizationRead conn (ImportStatePassthrough id) w').2.1 =
      { id := id, arn := o.Arn, feature_set := o.FeatureSet,
        master_account_arn := o.MasterAccountArn,
        master_account_email := o.MasterAccountEmail,
        master_account_id := o.MasterAccountId } := by
  have hread : ∀ (d0 : ResourceData) (w0 : Remote σ),
      (conn.DescribeOrganization w0.state).1 = Except.ok out →
      (resourceAwsOrganizationRead conn d0 w0).1 = Outcome.ok ∧
      (resourceAwsOrganizationRead conn d0 w0).2.1 =
        { id := d0.id, arn := o.Arn, feature_set := o.FeatureSet,
          master_account_arn := o.MasterAccountArn,
          master_account_email := o.MasterAccountEmail,
          master_account_id := o.MasterAccountId } := by
    intro d0 w0 h0
    simp [resourceAwsOrganizationRead, h0, hout, ResourceData.Set]
  have hcr : resourceAwsOrganizationCreate conn d w =
      resourceAwsOrganizationRead conn (d.SetId id)
        { state := (conn.CreateOrganization { FeatureSet := some (d.Get "feature_set") } w.state).2,
          calls := w.calls ++
            [RemoteCall.CreateOrganization { FeatureSet := some (d.Get "feature_set") }] } := by
    simp [resourceAwsOrganizationCreate, hcreate, horg, hid]
  have hc := hread (d.SetId id)
    { state := (conn.CreateOrganization { FeatureSet := some (d.Get "feature_set") } w.state).2,
      calls := w.calls ++
        [RemoteCall.CreateOrganization { FeatureSet := some (d.Get "feature_set") }] } hdescribe1
  rw [← hcr] at hc
  have hstate : (conn.DescribeOrganization (resourceAwsOrganizationCreate conn d w).2.2.state).1
      = Except.ok out := by
    rw [hcr, read_remote]
    exact hdescribe2
  have hr := hread (resourceAwsOrganizationCreate conn d w).2.1
    (resourceAwsOrganizationCreate conn d w).2.2 hstate
  have hi := hread (ImportStatePassthrough id) w' hdescribe3
  refine ⟨hc.1, hr.1, hi.1, ?_, ?_⟩
  · rw [hi.2, hr.2, hc.2]
    simp [ImportStatePassthrough, ResourceData.SetId]
  · rw [hi.2]
    simp [ImportStatePassthrough, ResourceData.SetId]

/-- Witness for C7: creating a consolidated-billing organization from a state
configured in lower case, against importing its identifier afterwards. -/
theorem import_read_eq_create_read_witness :
    (resourceAwsOrganizationRead liveConn (ImportStatePassthrough "o-exampleorgid")
      (freshRemote (some (sampleOrganization (some "consolidated_billing"))))).2.1 =
    (resourceAwsOrganizationRead liveConn
      (resourceAwsOrganizationCreate liveConn (plannedState "consolidated_billing")
        (freshRemote none)).2.1
      (resourceAwsOrganizationCreate liveConn (plannedState "consolidated_billing")
        (freshRemote none)).2.2).2.1 :=
  (import_read_eq_create_read liveConn (plannedState "consolidated_billing") (freshRemote none)
    (freshRemote (some (sampleOrganization (some "consolidated_billing"))))
    { Organization := some (sampleOrganization (some "consolidated_billing")) }
    (sampleOrganization (some "consolidated_billing")) "o-exampleorgid"
    { Organization := some (sampleOrganization (some "consolidated_billing")) }
    (sampleOrganization (some "consolidated_billing")) rfl rfl rfl rfl rfl rfl rfl).2.2.2.1

end AwsOrganization
